import Mathlib

/-!
Verification of the prediction-request pipeline of the proyecto_copa
repository (src/app.py and src/entrenamiento.py), shallowly embedded in
Lean 4.  Python floats are modelled as rationals; pandas DataFrames are
modelled as lists of records; exceptions are modelled with Except.
-/

namespace ProyectoCopa

/-- One row of the fares / historical CSV
("US Airline Flight Routes and Fares 1993-2024").  Only the columns the
embedded code touches are carried: airport_1, airport_2, city1, city2,
nsmiles, fare, Year, quarter, passengers, lf_ms. -/
structure FareRow where
  airport1 : String
  airport2 : String
  city1 : String
  city2 : String
  nsmiles : ℚ
  fare : ℚ
  year : ℤ
  quarter : ℤ
  passengers : ℚ
  lfMs : ℚ

/-- route_name column: airport_1 concatenated with airport_2 through a
hyphen (entrenamiento.py line 25 and app.py line 76 use the same
construction). -/
def routeName (r : FareRow) : String :=
  r.airport1 ++ "-" ++ r.airport2

/-- The route-encodings dictionary, as an association list from route
name to integer code (route_encodings.pkl). -/
abbrev RouteEncoding := List (String × Int)

/-- entrenamiento.py lines 25-29: `fares_df.groupby(['route_name']).ngroup()`
numbers the groups 0,1,2,... in the order of the lexicographically sorted
distinct keys (pandas groupby defaults to sort=True), and the
drop_duplicates/set_index/to_dict chain keeps one (route_name, code) pair
per distinct route name.  The embedding takes the distinct route names,
sorts them, and pairs the i-th sorted name with code i. -/
def buildEncoding (records : List FareRow) : RouteEncoding :=
  (((records.map routeName).dedup.mergeSort (fun a b => decide (a ≤ b))).enum).map
    (fun p => (p.2, (p.1 : Int)))

/-- app.py line 111: `route_encodings.get(selected_route, -1)` — dictionary
lookup with default -1. -/
def lookup (enc : RouteEncoding) (r : String) : Int :=
  match enc.find? (fun p => p.1 == r) with
  | some p => p.2
  | none => -1

/-- The user-supplied sidebar values (app.py lines 88-103): selected route,
number of miles, fare, year, quarter, seat capacity. -/
structure FlightQuery where
  route : String
  nsmiles : ℚ
  fare : ℚ
  year : ℤ
  quarter : ℤ
  capacity : ℚ

/-- app.py line 115: the columns of the single-row inference DataFrame. -/
def inferenceColumns : List String :=
  ["route_encoded", "nsmiles", "fare", "Year", "quarter", "capacity"]

/-- entrenamiento.py line 40: the columns selected into `features`. -/
def trainingBaseColumns : List String :=
  ["route_encoded", "nsmiles", "fare", "Year", "quarter"]

/-- entrenamiento.py line 47: `features.loc[:, 'capacity'] = ...` appends a
new column named capacity at the end, so the training feature matrix for
all three models has these columns in this order. -/
def trainingColumns : List String :=
  trainingBaseColumns ++ ["capacity"]

/-- app.py line 114: the values of the single-row inference DataFrame, in
column order. -/
def buildInput (q : FlightQuery) (enc : RouteEncoding) : List ℚ :=
  [((lookup enc q.route : ℤ) : ℚ), q.nsmiles, q.fare, (q.year : ℚ),
    (q.quarter : ℚ), q.capacity]

/-- A loaded model: a function from the feature row to a raw scalar
output, or a Python exception (modelled as an error message). -/
abbrev Model := List ℚ → Except String ℚ

/-- A model whose inference always succeeds. -/
def pureModel (f : List ℚ → ℚ) : Model := fun row => Except.ok (f row)

/-- app.py lines 118-120: the three `.predict(input_df)[0]` calls, run in
sequence inside one Python block; an exception in any call aborts the
block. -/
def predictAll (dm pm lm : Model) (row : List ℚ) :
    Except String (ℚ × ℚ × ℚ) := do
  let d ← dm row
  let p ← pm row
  let l ← lm row
  pure (d, p, l)

/-- Python `int(x)` on a float: truncation toward zero.  On a rational
this is the truncated quotient of numerator by denominator. -/
def pyInt (x : ℚ) : ℤ := x.num.tdiv x.den

/-- app.py line 129: `"Alta" if demand_pred > 0.5 else "Baja"`. -/
def predictedDemand (x : ℚ) : String :=
  if 1/2 < x then "Alta" else "Baja"

/-- app.py line 133: `f"{int(passengers_pred):,.0f}"` — the displayed
passenger count is `int(passengers_pred)` (the thousands-separator format
does not change the numeric value). -/
def displayedPassengers (x : ℚ) : ℤ := pyInt x

/-- app.py line 137: `f"{load_factor_pred:.2%}"` — the percent format
multiplies by 100 and keeps two decimal digits, so the displayed numeric
percentage is 100·x rounded to two decimals.  The display rounding is
modelled as round-half-up on exact rationals (CPython formats binary
floats with round-half-even; the two agree except at exact ties). -/
def displayedLoadFactorPct (x : ℚ) : ℚ :=
  (Rat.floor (10000 * x + 1/2) : ℚ) / 100

/-- The three displayed prediction values (app.py lines 128-138). -/
structure DisplayResult where
  demand : String
  passengers : ℤ
  loadFactorPct : ℚ

/-- Post-processing of the raw (demand, passengers, load factor) triple
into the displayed values (app.py lines 129, 133, 137). -/
def postProcess (t : ℚ × ℚ × ℚ) : DisplayResult :=
  ⟨predictedDemand t.1, displayedPassengers t.2.1, displayedLoadFactorPct t.2.2⟩

/-- app.py lines 111-137: the whole prediction block run on one button
press — build the input row, run the three models, post-process.  A Python
exception anywhere in the block aborts it (Except.error). -/
def handleRequest (dm pm lm : Model) (enc : RouteEncoding) (q : FlightQuery) :
    Except String DisplayResult :=
  Except.map postProcess (predictAll dm pm lm (buildInput q enc))

/-- app.py line 152: `historical_data[historical_data['route_name'] == selected_route]`
— exact-match row filter. -/
def filterByRoute (data : List FareRow) (r : String) : List FareRow :=
  data.filter (fun h => routeName h == r)

/-- app.py line 156: `drop_duplicates(subset=['Year', 'quarter'])` — keep
the first row for each (Year, quarter) key. -/
def dropDupPeriods : List FareRow → List (ℤ × ℤ) → List FareRow
  | [], _ => []
  | h :: t, seen =>
      if (h.year, h.quarter) ∈ seen then dropDupPeriods t seen
      else h :: dropDupPeriods t ((h.year, h.quarter) :: seen)

/-- Ordering by (Year, quarter), the sort key of app.py line 157. -/
def periodLe (a b : FareRow) : Bool :=
  decide (a.year < b.year) || (decide (a.year = b.year) && decide (a.quarter ≤ b.quarter))

/-- app.py lines 156-157: deduplicate by period, then sort by
(Year, quarter). -/
def prepareChart (rows : List FareRow) : List FareRow :=
  (dropDupPeriods rows []).mergeSort periodLe

/-- Outcome of the historical-analysis section: either a chart over the
prepared rows (app.py lines 160-183) or the no-data warning
(app.py line 186). -/
inductive HistView where
  | chart : List FareRow → HistView
  | noData : HistView

/-- app.py lines 152-186: filter by the selected route; if the result is
non-empty, chart it, otherwise show the no-data notice. -/
def renderHistory (data : List FareRow) (r : String) : HistView :=
  let filtered := filterByRoute data r
  if !filtered.isEmpty then HistView.chart (prepareChart filtered)
  else HistView.noData

/- Concrete fixtures used by witnesses and counterexamples. -/

/-- A one-pair encoding, as in the spec scenario "JFK-LAX known with code 7". -/
def sampleEncoding : RouteEncoding := [("JFK-LAX", 7)]

/-- The spec scenario query: JFK-LAX, 2475 miles, fare 300, year 2024,
quarter 2, capacity 180. -/
def sampleQuery : FlightQuery :=
  ⟨"JFK-LAX", 2475, 300, 2024, 2, 180⟩

/-- A query whose quarter is 5, outside {1,2,3,4}. -/
def invalidQuarterQuery : FlightQuery :=
  ⟨"JFK-LAX", 2475, 300, 2024, 5, 180⟩

/-- A query for a route absent from sampleEncoding. -/
def unknownRouteQuery : FlightQuery :=
  ⟨"ZZZ-ZZZ", 1000, 250, 2024, 1, 180⟩

/-- A model whose artifact failed to deserialize: every inference call
raises. -/
def failingModel : Model := fun _ => Except.error "DeserializationError"

/-- A model that always returns 1. -/
def oneModel : Model := pureModel (fun _ => 1)

/-- A single historical row for route AAA-BBB. -/
def sampleRow : FareRow :=
  ⟨"AAA", "BBB", "CityA", "CityB", 100, 50, 2020, 1, 10, 1/2⟩

/- Theorems. -/

/-- Claim C1: the single inference row built by the app has the columns
(route_encoded, nsmiles, fare, Year, quarter, capacity) in that order,
its value list has matching length for every FlightQuery, and this column
list equals the column order of the training feature matrix used to fit
all three models. -/
theorem claim_C1 (q : FlightQuery) (enc : RouteEncoding) :
    inferenceColumns = ["route_encoded", "nsmiles", "fare", "Year", "quarter", "capacity"] ∧
    (buildInput q enc).length = inferenceColumns.length ∧
    inferenceColumns = trainingColumns := by
  refine ⟨rfl, rfl, rfl⟩

/-- Claim C2, counterexample: the three inference calls are not
independent.  With a demand model whose artifact failed to deserialize
and two models that succeed, the whole prediction block aborts with the
demand model's error: no partial result carrying the other two outputs is
produced, and no per-model error list exists in the code. -/
theorem claim_C2_counterexample :
    predictAll failingModel oneModel oneModel
        (buildInput sampleQuery sampleEncoding)
      = Except.error "DeserializationError" := rfl

/-- Claim C2, amended: the three inference calls run in sequence inside
one Python block with no per-model error handling, so if any model's
inference raises — the demand model, or the passengers model after a
successful demand call, or the load-factor model after two successful
calls — the whole prediction block fails with that model's error and
nothing is reported for the other models. -/
theorem claim_C2_amended (dm pm lm : Model) (row : List ℚ) (e : String)
    (h : dm row = Except.error e ∨
        ((dm row).isOk ∧ pm row = Except.error e) ∨
        ((dm row).isOk ∧ (pm row).isOk ∧ lm row = Except.error e)) :
    predictAll dm pm lm row = Except.error e := by
  rcases h with h1 | ⟨h1, h2⟩ | ⟨h1, h2, h3⟩
  · simp only [predictAll]
    rw [h1]
    rfl
  · cases hdm : dm row with
    | error e2 =>
        rw [hdm] at h1
        simp [Except.isOk, Except.toBool] at h1
    | ok d =>
        simp only [predictAll]
        rw [hdm, h2]
        rfl
  · cases hdm : dm row with
    | error e2 =>
        rw [hdm] at h1
        simp [Except.isOk, Except.toBool] at h1
    | ok d =>
        cases hpm : pm row with
        | error e2 =>
            rw [hpm] at h2
            simp [Except.isOk, Except.toBool] at h2
        | ok p =>
            simp only [predictAll]
            rw [hdm, hpm, h3]
            rfl

/-- Witness for claim C2 amended: the passengers model fails after a
successful demand call, and the whole block fails with its error. -/
theorem claim_C2_amended_witness :
    predictAll oneModel failingModel oneModel [] = Except.error "DeserializationError" :=
  claim_C2_amended oneModel failingModel oneModel [] "DeserializationError"
    (Or.inr (Or.inl ⟨rfl, rfl⟩))

/-- Claim C3, counterexample: no validation happens before the models are
called.  With quarter 5 (outside 1..4) the input row is still built and
all three models run: the block returns the post-processed outputs, not a
ValidationError. -/
theorem claim_C3_counterexample :
    handleRequest oneModel oneModel oneModel sampleEncoding invalidQuarterQuery
      = Except.ok ⟨"Alta", 1, 100⟩ := by
  have hd : predictedDemand 1 = "Alta" := by
    rw [predictedDemand, if_pos (by norm_num)]
  have hp : displayedPassengers 1 = 1 := by
    rw [displayedPassengers, pyInt]
    norm_num
  have hl : displayedLoadFactorPct 1 = 100 := by
    rw [displayedLoadFactorPct, Rat.floor_def']
    norm_num
  show Except.ok (postProcess (1, 1, 1)) = _
  simp only [postProcess, hd, hp, hl]

/-- Claim C3, amended: the prediction block performs no input validation
at all — for every query, including quarter outside {1,2,3,4} and
non-positive miles, fare or capacity, the input row is built and the three
models are invoked on it; the sidebar widget bounds (miles ≥ 1, fare ≥ 1,
quarter between 1 and 4, capacity ≥ 1) are the only restriction, and no
ValidationError exists in the code. -/
theorem claim_C3_amended (q : FlightQuery) (enc : RouteEncoding)
    (f g h : List ℚ → ℚ) :
    handleRequest (pureModel f) (pureModel g) (pureModel h) enc q
      = Except.ok (postProcess
          (f (buildInput q enc), g (buildInput q enc), h (buildInput q enc))) := rfl

/-- Claim C4, counterexample: the displayed passenger count is
`int(passengers_pred)` — truncation toward zero, not `max(0, round(value))`:
at raw output 5.7 the app displays 5 while the claimed formula gives 6. -/
theorem claim_C4_counterexample :
    displayedPassengers (57/10) ≠ max 0 (round ((57:ℚ)/10)) := by
  have h1 : displayedPassengers (57/10) = 5 := by
    rw [displayedPassengers, pyInt]
    norm_num
    decide
  have h2 : max (0:ℤ) (round ((57:ℚ)/10)) = 6 := by
    rw [round_eq, Rat.floor_def]
    norm_num
  rw [h1, h2]
  decide

/-- Claim C4, amended: the displayed passenger count is the raw value
truncated toward zero (Python int) — the floor for a non-negative raw
output, the ceiling for a negative one — with no rounding and no
clamping: it is non-negative for a non-negative raw output, and it is
strictly negative exactly when the raw output is at most -1, so a clamp
to max(0, ·) is absent. -/
theorem claim_C4_amended (x : ℚ) :
    displayedPassengers x = (if 0 ≤ x then ⌊x⌋ else ⌈x⌉) ∧
    (0 ≤ x → 0 ≤ displayedPassengers x) ∧
    (displayedPassengers x < 0 ↔ x ≤ -1) := by
  by_cases h : 0 ≤ x
  · have hfl : displayedPassengers x = ⌊x⌋ := by
      rw [displayedPassengers, pyInt, Rat.floor_def,
        Int.tdiv_eq_ediv (Rat.num_nonneg.mpr h) (Int.ofNat_nonneg _)]
    have hnn : 0 ≤ ⌊x⌋ := Int.floor_nonneg.mpr h
    refine ⟨by rw [hfl, if_pos h], fun _ => by rw [hfl]; exact hnn, ?_⟩
    rw [hfl]
    constructor
    · intro hlt
      exact absurd hlt (not_lt.mpr hnn)
    · intro hle
      exfalso
      linarith
  · have hx : x < 0 := not_le.mp h
    have hnum : x.num < 0 := Rat.num_neg.mpr hx
    have hceil : displayedPassengers x = ⌈x⌉ := by
      have h2 : (-x.num).tdiv (x.den : ℤ) = -x.num / (x.den : ℤ) :=
        Int.tdiv_eq_ediv (by omega) (Int.ofNat_nonneg _)
      have h3 : ⌊-x⌋ = -x.num / ((x.den : ℕ) : ℤ) := by
        rw [Rat.floor_def, Rat.neg_num, Rat.neg_den]
      rw [displayedPassengers, pyInt, ← neg_neg x.num, Int.neg_tdiv, h2, ← h3,
        Int.floor_neg, neg_neg]
    refine ⟨by rw [hceil, if_neg h], fun hx0 => absurd hx0 h, ?_⟩
    rw [hceil]
    constructor
    · intro hlt
      have hc1 : ⌈x⌉ ≤ -1 := by omega
      have := Int.ceil_le.mp hc1
      exact_mod_cast this
    · intro hle
      have hc1 : ⌈x⌉ ≤ -1 := Int.ceil_le.mpr (by exact_mod_cast hle)
      omega

/-- Witness for claim C4 amended: raw output 5.7 displays a non-negative
count while raw output -5.7 displays a strictly negative one. -/
theorem claim_C4_amended_witness :
    0 ≤ displayedPassengers ((57:ℚ)/10) ∧ displayedPassengers (-((57:ℚ)/10)) < 0 :=
  ⟨(claim_C4_amended ((57:ℚ)/10)).2.1 (by norm_num),
   (claim_C4_amended (-((57:ℚ)/10))).2.2.mpr (by norm_num)⟩

/-- Claim C5, counterexample: the load-factor output is not clamped to
[0, 1]: at raw output 1.5 the app displays 150.00%, outside the [0, 100]
percentage range the claim implies. -/
theorem claim_C5_counterexample :
    displayedLoadFactorPct (3/2) = 150 ∧ ¬ displayedLoadFactorPct (3/2) ≤ 100 := by
  have h : displayedLoadFactorPct (3/2) = 150 := by
    rw [displayedLoadFactorPct, Rat.floor_def']
    norm_num
  refine ⟨h, ?_⟩
  rw [h]
  norm_num

/-- Claim C5, amended: the raw load-factor output is displayed as a
percentage with two-decimal precision without any clamping: the displayed
percentage lies in [0, 100] whenever the raw value lies in [0, 1], but an
out-of-range raw value displays an out-of-range percentage. -/
theorem claim_C5_amended (x : ℚ) (h0 : 0 ≤ x) (h1 : x ≤ 1) :
    0 ≤ displayedLoadFactorPct x ∧ displayedLoadFactorPct x ≤ 100 := by
  have hfl : Rat.floor (10000 * x + 1/2) = ⌊10000 * x + 1/2⌋ := by
    rw [Rat.floor_def', Rat.floor_def]
  constructor
  · rw [displayedLoadFactorPct, hfl]
    have hnn : (0:ℤ) ≤ ⌊10000 * x + 1/2⌋ := Int.floor_nonneg.mpr (by nlinarith)
    have : (0:ℚ) ≤ (⌊10000 * x + 1/2⌋ : ℚ) := by exact_mod_cast hnn
    exact div_nonneg this (by norm_num)
  · rw [displayedLoadFactorPct, hfl]
    have hub : ⌊10000 * x + 1/2⌋ ≤ 10000 := by
      have hle : (10000:ℚ) * x + 1/2 ≤ 20001/2 := by nlinarith
      calc ⌊(10000:ℚ) * x + 1/2⌋ ≤ ⌊(20001:ℚ)/2⌋ := Int.floor_le_floor hle
        _ = 10000 := by
            rw [Rat.floor_def]
            norm_num
    rw [div_le_iff₀ (by norm_num)]
    calc ((⌊10000 * x + 1/2⌋ : ℤ) : ℚ) ≤ ((10000:ℤ) : ℚ) := by exact_mod_cast hub
      _ ≤ 100 * 100 := by norm_num

/-- Witness for claim C5 amended at raw output 0.5. -/
theorem claim_C5_amended_witness :
    0 ≤ displayedLoadFactorPct (1/2) ∧ displayedLoadFactorPct (1/2) ≤ 100 :=
  claim_C5_amended (1/2) (by norm_num) (by norm_num)

/-- Claim C6: the displayed demand label is the high category ("Alta")
exactly when the raw model output is strictly greater than 0.5, and the
low category ("Baja") otherwise. -/
theorem claim_C6 (x : ℚ) :
    (predictedDemand x = "Alta" ↔ 1/2 < x) ∧
    (predictedDemand x = "Baja" ↔ ¬ 1/2 < x) := by
  by_cases h : (1:ℚ)/2 < x <;> simp [predictedDemand, h]

/-- Claim C7: for every historical dataset, the route encoding built at
training time has pairwise-distinct route-name keys (each distinct route
identifier gets exactly one entry), pairwise-distinct integer codes, and
as many entries as there are distinct route identifiers. -/
theorem claim_C7 (records : List FareRow) :
    ((buildEncoding records).map Prod.fst).Nodup ∧
    ((buildEncoding records).map Prod.snd).Nodup ∧
    (buildEncoding records).length = ((records.map routeName).dedup).length := by
  have hcomp : (Prod.fst ∘ fun p : ℕ × String => (p.2, (p.1 : Int))) = Prod.snd := rfl
  have hperm := List.mergeSort_perm (records.map routeName).dedup
      (fun a b => decide (a ≤ b))
  have hkeys : (buildEncoding records).map Prod.fst
      = (records.map routeName).dedup.mergeSort (fun a b => decide (a ≤ b)) := by
    rw [buildEncoding, List.map_map, hcomp, List.enum_map_snd]
  refine ⟨?_, ?_, ?_⟩
  · rw [hkeys]
    exact hperm.nodup_iff.mpr (List.nodup_dedup _)
  · have hcomp2 : (Prod.snd ∘ fun p : ℕ × String => (p.2, (p.1 : Int)))
        = (fun n : ℕ => (n : Int)) ∘ Prod.fst := rfl
    rw [buildEncoding, List.map_map, hcomp2, ← List.map_map, List.enum_map_fst]
    exact (List.nodup_range _).map Nat.cast_injective
  · rw [buildEncoding, List.length_map, List.enum_length, hperm.length_eq]

/-- Claim C8: looking up a route absent from the encoding returns the
sentinel -1 without raising, and the prediction pipeline still runs to
completion on such a query whenever the three model calls themselves
succeed. -/
theorem claim_C8 (enc : RouteEncoding) (q : FlightQuery) (f g h : List ℚ → ℚ)
    (hq : q.route ∉ enc.map Prod.fst) :
    lookup enc q.route = -1 ∧
    handleRequest (pureModel f) (pureModel g) (pureModel h) enc q
      = Except.ok (postProcess
          (f (buildInput q enc), g (buildInput q enc), h (buildInput q enc))) := by
  refine ⟨?_, rfl⟩
  rw [lookup]
  have hnone : enc.find? (fun p => p.1 == q.route) = none := by
    rw [List.find?_eq_none]
    intro p hp
    simp only [beq_iff_eq]
    intro hcontra
    exact hq (hcontra ▸ List.mem_map_of_mem Prod.fst hp)
  rw [hnone]

/-- Witness for claim C8: the unknown route "ZZZ-ZZZ" against the
one-entry encoding. -/
theorem claim_C8_witness :
    lookup sampleEncoding unknownRouteQuery.route = -1 ∧
    handleRequest (pureModel (fun _ => (0:ℚ))) (pureModel (fun _ => (0:ℚ)))
        (pureModel (fun _ => (0:ℚ))) sampleEncoding unknownRouteQuery
      = Except.ok (postProcess (0, 0, 0)) :=
  claim_C8 sampleEncoding unknownRouteQuery (fun _ => 0) (fun _ => 0) (fun _ => 0)
    (by decide)

/-- Claim C9: every code produced at training time is a cast of a
non-negative group index, so it is ≥ 0 and in particular never equals the
sentinel -1. -/
theorem claim_C9 (records : List FareRow) (c : ℤ)
    (hc : c ∈ (buildEncoding records).map Prod.snd) :
    0 ≤ c ∧ c ≠ -1 := by
  rw [buildEncoding, List.map_map] at hc
  obtain ⟨p, hp, hpc⟩ := List.mem_map.mp hc
  have hcc : c = (p.1 : ℤ) := hpc.symm
  subst hcc
  exact ⟨by omega, by omega⟩

/-- Witness for claim C9: the code assigned to the single route of a
one-row dataset. -/
theorem claim_C9_witness : (0:ℤ) ≤ 0 ∧ (0:ℤ) ≠ -1 :=
  claim_C9 [sampleRow] 0 (by
    rw [buildEncoding]
    rw [show ([sampleRow].map routeName).dedup = [routeName sampleRow] from rfl]
    rw [List.mergeSort_singleton]
    decide)

/-- Claim C10: when no historical record matches the selected route, the
exact-match filter returns the empty list, deduplicating and sorting that
empty list stays empty, and the page shows the no-data notice instead of
failing. -/
theorem claim_C10 (data : List FareRow) (r : String)
    (hr : ∀ h ∈ data, routeName h ≠ r) :
    filterByRoute data r = [] ∧
    prepareChart (filterByRoute data r) = [] ∧
    renderHistory data r = HistView.noData := by
  have hf : filterByRoute data r = [] := by
    rw [filterByRoute, List.filter_eq_nil_iff]
    intro a ha
    simp only [beq_iff_eq]
    exact hr a ha
  refine ⟨hf, ?_, ?_⟩
  · rw [hf, prepareChart]
    rw [show dropDupPeriods [] [] = [] from rfl]
    exact List.mergeSort_nil
  · simp only [renderHistory, hf]
    rfl

/-- Witness for claim C10: a one-row dataset for route AAA-BBB queried
with route "ZZZ-ZZZ". -/
theorem claim_C10_witness :
    filterByRoute [sampleRow] "ZZZ-ZZZ" = [] ∧
    prepareChart (filterByRoute [sampleRow] "ZZZ-ZZZ") = [] ∧
    renderHistory [sampleRow] "ZZZ-ZZZ" = HistView.noData :=
  claim_C10 [sampleRow] "ZZZ-ZZZ" (by decide)

end ProyectoCopa
